import Mathlib

/-!
Shallow embedding of the semantic-verification passes of the firefly
compiler front end (src/compiler/syntax_erl/src/passes/sema/verify.rs).

The pass code in verify.rs is embedded directly.  Types that verify.rs
consumes from other crates (the AST, FunctionName, Deprecation, the
reporter and the metadata collaborator, and the string-similarity
metric) are not under src/, so they are modelled from the spec; each
such definition carries a doc comment saying so.

Conventions of the embedding:
- source spans are abstract location identifiers (Nat);
- the reporter is modelled by returning the ordered list of submitted
  diagnostics;
- a Rust panic (the unreachable branches for the legacy deprecation
  variant) is modelled as the .error case of Except, so a pass that
  returns .ok never panicked and never failed;
- machine integers: the call arity in the source is a u8 obtained by
  the cast (args.len() as u8), embedded as args.length % 256.
-/

namespace Erl

/-- Modelled from the spec: a source span, abstracted to a location id. -/
abbrev SourceSpan := Nat

/-- Modelled from the spec: an interned symbol, abstracted to a string. -/
abbrev Symbol := String

/-- Modelled from the spec: an identifier occurrence, a symbol with the span of its token. -/
structure Ident where
  name : Symbol
  span : SourceSpan
deriving DecidableEq, Repr

/-- Modelled from the spec: a value paired with a source span. -/
structure Spanned (α : Type) where
  span : SourceSpan
  item : α
deriving DecidableEq, Repr

/-- Modelled from the spec: a triple of optional owning module, function atom and
arity; the arity field is a u8 in the source, so it is always below 256. -/
structure FunctionName where
  module : Option Symbol
  function : Symbol
  arity : Nat
deriving DecidableEq, Repr

def FunctionName.new (m f : Symbol) (a : Nat) : FunctionName :=
  { module := some m, function := f, arity := a }

def FunctionName.new_local (f : Symbol) (a : Nat) : FunctionName :=
  { module := none, function := f, arity := a }

/-- Converting a qualified name to local form drops the module field. -/
def FunctionName.to_local (n : FunctionName) : FunctionName :=
  { module := none, function := n.function, arity := n.arity }

/-- Modelled from the spec: the display form used in diagnostics,
module:function/arity, or function/arity for a local name. -/
def FunctionName.toString (n : FunctionName) : String :=
  match n.module with
  | some m => m ++ ":" ++ n.function ++ "/" ++ Nat.repr n.arity
  | none => n.function ++ "/" ++ Nat.repr n.arity

/-- Modelled from the spec: a deprecation fact — module-level, function-level,
or the legacy function-any-arity variant that must never occur at this stage. -/
inductive Deprecation where
  | Module (span : SourceSpan) (flag : String)
  | Function (function : FunctionName) (span : SourceSpan) (flag : String)
  | FunctionAnyArity (function : Symbol) (span : SourceSpan) (flag : String)
deriving DecidableEq, Repr

/-- True exactly on the legacy variant. -/
def Deprecation.is_legacy : Deprecation → Bool
  | .FunctionAnyArity _ _ _ => true
  | _ => false

/-- Modelled from the spec: the metadata collaborator, two read-only queries. -/
structure ApplicationMetadata where
  get_function_deprecation : FunctionName → Option Deprecation
  get_module_deprecation : Symbol → Option Deprecation

/-- Diagnostic severity. -/
inductive Severity where
  | error
  | warning
deriving DecidableEq, Repr

/-- Modelled from the spec: a diagnostic record, a severity, a primary message
and an ordered list of (span, annotation) pairs. -/
structure Diagnostic where
  severity : Severity
  message : String
  labels : List (SourceSpan × String)
deriving DecidableEq, Repr

/-- Reporter.show_error: submit an error diagnostic. -/
def show_error (message : String) (labels : List (SourceSpan × String)) : Diagnostic :=
  { severity := .error, message := message, labels := labels }

/-- Reporter.show_warning: submit a warning diagnostic. -/
def show_warning (message : String) (labels : List (SourceSpan × String)) : Diagnostic :=
  { severity := .warning, message := message, labels := labels }

/-- Modelled from the spec: a name position that is either a known atom or a variable. -/
inductive Name where
  | Atom (id : Ident)
  | Var (id : Ident)
deriving DecidableEq, Repr

/-- Modelled from the spec: an arity that is either a known integer or dynamic. -/
inductive Arity where
  | Int (i : Nat)
  | Var (id : Ident)
deriving DecidableEq, Repr

/-- Modelled from the spec: literals; only the atom form matters to verification,
one other form stands in for the rest. -/
inductive Literal where
  | Atom (id : Ident)
  | Integer (span : SourceSpan) (i : Int)
deriving DecidableEq, Repr

/-- Modelled from the spec: a partially resolved function reference — function
atom known, owning module not resolved; arity is a u8 in the source. -/
structure PartiallyResolvedFunctionName where
  span : SourceSpan
  function : Symbol
  arity : Nat
deriving DecidableEq, Repr

/-- Modelled from the spec: display form of a partially resolved reference. -/
def PartiallyResolvedFunctionName.toString (n : PartiallyResolvedFunctionName) : String :=
  n.function ++ "/" ++ Nat.repr n.arity

/-- Modelled from the spec: an unresolved function reference — module and
function may be variables, arity may be dynamic. -/
structure UnresolvedFunctionName where
  span : SourceSpan
  module : Option Name
  function : Name
  arity : Arity
deriving DecidableEq, Repr

/-- Modelled from the spec: the three function-reference resolution states. -/
inductive FunctionVar where
  | Resolved (name : Spanned FunctionName)
  | PartiallyResolved (name : PartiallyResolvedFunctionName)
  | Unresolved (name : UnresolvedFunctionName)
deriving DecidableEq, Repr

/-- Modelled from the spec: the expression forms the call verifier inspects;
Remote is an explicit module:function pair of sub-expressions, Apply is a
call with a callee and syntactic arguments, Var stands for every other
(dynamic) expression form. -/
inductive Expr where
  | Remote (span : SourceSpan) (module : Expr) (function : Expr)
  | FunctionVar (fv : FunctionVar)
  | Literal (lit : Literal)
  | Apply (span : SourceSpan) (callee : Expr) (args : List Expr)
  | Var (id : Ident)

/-- Modelled from the spec: an expression is a statically known atom exactly
when it is an atom literal. -/
def Expr.as_atom : Expr → Option Ident
  | .Literal (.Atom id) => some id
  | _ => none

/-- Modelled from the spec: a function definition — its span, whether it is
native-backed, and its body expressions. -/
structure Function where
  span : SourceSpan
  is_nif : Bool
  body : List Expr

/-- Modelled from the spec: the module AST handed to every pass.  The keyed
maps of the source are embedded as association lists. -/
structure Module where
  name : Ident
  functions : List (FunctionName × Function)
  exports : List (Spanned FunctionName)
  imports : List (FunctionName × FunctionName)
  specs : List (FunctionName × SourceSpan)
  nifs : List (Spanned FunctionName)
  on_load : Option (Spanned FunctionName)

/-- Map membership test (contains_key). -/
def containsKey {α : Type} (l : List (FunctionName × α)) (k : FunctionName) : Bool :=
  l.any (fun p => decide (p.1 = k))

/-- Map lookup (get). -/
def lookupKey {α : Type} : List (FunctionName × α) → FunctionName → Option α
  | [], _ => none
  | p :: rest, k => if p.1 = k then some p.2 else lookupKey rest k

/-- The candidate list the export verifier scores: one (definition span,
name text) pair per defined function. -/
def similar_functions (m : Module) : List (Spanned String) :=
  m.functions.map (fun p => { span := p.2.span, item := p.1.toString })

/-- One step of iterator max_by with total_cmp: keep the accumulator only
when it is strictly greater, so the last maximum wins. -/
def max_by_step (acc : Option (Rat × Spanned String)) (x : Rat × Spanned String) :
    Option (Rat × Spanned String) :=
  match acc with
  | none => some x
  | some a => if a.1 > x.1 then some a else some x

/-- Iterator max_by with total_cmp: the last maximum wins, none on empty. -/
def max_by_score (l : List (Rat × Spanned String)) : Option (Rat × Spanned String) :=
  l.foldl max_by_step none

/-- Modelled from the spec: the similarity scoring and threshold decision of
the export verifier.  The metric itself (strsim jaro_winkler, an external
crate) is a parameter; scores are embedded as rationals and the 0.85
threshold as 17/20. -/
def most_similar (sim : String → String → Rat) (name : String)
    (cands : List (Spanned String)) : Option (Spanned String) :=
  match max_by_score (cands.map (fun f => (|sim name f.item|, f))) with
  | none => none
  | some p => if p.1 < 17 / 20 then none else some p.2

/-- The diagnostic VerifyExports emits for one invalid export. -/
def export_diag (sim : String → String → Rat) (m : Module)
    (ex : Spanned FunctionName) : Diagnostic :=
  let name := ex.item.toString
  match most_similar sim name (similar_functions m) with
  | none =>
      show_error ("invalid export")
        [(ex.span, ("the referenced function is not defined in this module"))]
  | some f =>
      show_error ("invalid export")
        [(ex.span, ("the referenced function is not defined in this module")),
         (f.span, ("maybe you meant to export " ++ f.item ++ " instead?"))]

/-- VerifyExports::run.  The once-cell memoization of the candidate list is
semantically transparent here because the embedding is pure. -/
def VerifyExports.run (sim : String → String → Rat) (m : Module) :
    Except String (Module × List Diagnostic) :=
  let ds := m.exports.foldl
    (fun acc ex =>
      if containsKey m.functions ex.item then acc else acc ++ [export_diag sim m ex])
    []
  .ok (m, ds)

/-- VerifyOnLoadFunctions::run. -/
def VerifyOnLoadFunctions.run (m : Module) : Except String (Module × List Diagnostic) :=
  match m.on_load with
  | some on_load_name =>
      if containsKey m.functions on_load_name.item then .ok (m, [])
      else
        .ok (m, [show_error ("invalid on_load function")
          [(on_load_name.span, ("this function is not defined in this module"))]])
  | none => .ok (m, [])

/-- VerifyNifs::run. -/
def VerifyNifs.run (m : Module) : Except String (Module × List Diagnostic) :=
  let ds := m.nifs.foldl
    (fun acc nif =>
      match lookupKey m.functions nif.item with
      | none =>
          acc ++ [show_error ("invalid -nif declaration")
            [(nif.span, ("the referenced function is not defined in this module"))]]
      | some f =>
          if f.is_nif then acc
          else
            acc ++ [show_error ("misplaced -nif declaration")
              [(f.span, ("expected -nif declaration to precede the function it references"))]])
    []
  .ok (m, ds)

/-- VerifyTypeSpecs::run. -/
def VerifyTypeSpecs.run (m : Module) : Except String (Module × List Diagnostic) :=
  let ds := m.specs.foldl
    (fun acc p =>
      let local_spec_name := p.1.to_local
      if containsKey m.functions local_spec_name then acc
      else
        acc ++ [show_warning ("type spec for undefined function")
          [(p.2, ("this type spec has no corresponding function definition"))]])
    []
  .ok (m, ds)

/-- The read-only context of VerifyCallsVisitor. -/
structure VerifyCallsVisitor where
  app : ApplicationMetadata
  module : Symbol
  locals : List FunctionName
  imports : List (FunctionName × FunctionName)

/-- The callee-classification part of VerifyCallsVisitor::visit_mut_apply
(verify.rs lines 243-581): the diagnostics attributed to one call expression,
given the wrapped arity.  The .error case models the unreachable panic on the
legacy deprecation variant. -/
def verifyCallee (v : VerifyCallsVisitor) (span : SourceSpan) (arity : Nat) :
    Expr → Except String (List Diagnostic)
  | .Remote rspan mexpr fexpr =>
    match mexpr.as_atom, fexpr.as_atom with
    | some m, some f =>
      if m.name = v.module then
        let name := FunctionName.new_local f.name arity
        if name ∈ v.locals then .ok []
        else
          .ok [show_error ("reference to undefined function")
            [(rspan, ("the function " ++ name.toString ++ " is not defined in this module"))]]
      else
        let name := FunctionName.new m.name f.name arity
        match v.app.get_function_deprecation name with
        | none => .ok []
        | some (.Module dspan flag) =>
            .ok [show_warning ("use of deprecated module")
              [(m.span, ("this module will be deprecated " ++ flag)),
               (dspan, ("deprecation declared here"))]]
        | some (.Function _ dspan flag) =>
            .ok [show_warning ("use of deprecated function")
              [(f.span, ("this function will be deprecated " ++ flag)),
               (dspan, ("deprecation declared here"))]]
        | some (.FunctionAnyArity _ _ _) => .error ("unreachable")
    | none, some f =>
      let name := FunctionName.new_local f.name arity
      if name ∈ v.locals then .ok []
      else
        match lookupKey v.imports name with
        | none =>
            .ok [show_error ("reference to undefined function")
              [(f.span, ("the function " ++ name.toString ++
                " is not defined or imported in this module"))]]
        | some imported =>
          match v.app.get_function_deprecation imported with
          | none => .ok []
          | some (.Module dspan flag) =>
              .ok [show_warning ("use of deprecated module")
                [(f.span, ("this function will be deprecated " ++ flag)),
                 (dspan, ("deprecation declared here"))]]
          | some (.Function _ dspan flag) =>
              .ok [show_warning ("use of deprecated function")
                [(f.span, ("this function will be deprecated " ++ flag)),
                 (dspan, ("deprecation declared here"))]]
          | some (.FunctionAnyArity _ _ _) => .error ("unreachable")
    | _, _ => .ok []
  | .FunctionVar (.Resolved name) =>
    let pre : Except String (List Diagnostic) :=
      if name.item.module = some v.module then
        let local_name := name.item.to_local
        if local_name ∈ v.locals then .ok []
        else
          .ok [show_error ("reference to undefined function")
            [(name.span, ("the function " ++ local_name.toString ++
              " is not defined in this module"))]]
      else
        match v.app.get_function_deprecation name.item with
        | none => .ok []
        | some (.Module dspan flag) =>
            .ok [show_warning ("use of deprecated module")
              [(name.span, ("this function will be deprecated " ++ flag)),
               (dspan, ("deprecation declared here"))]]
        | some (.Function _ dspan flag) =>
            .ok [show_warning ("use of deprecated function")
              [(name.span, ("this function will be deprecated " ++ flag)),
               (dspan, ("deprecation declared here"))]]
        | some (.FunctionAnyArity _ _ _) => .error ("unreachable")
    match pre with
    | .error e => .error e
    | .ok ds =>
      let arity_ds : List Diagnostic :=
        if name.item.arity > arity then
          [show_error ("missing arguments")
            [(span, (name.item.toString ++ " requires " ++ Nat.repr name.item.arity ++
              " arguments, but only " ++ Nat.repr arity ++ " were provided"))]]
        else if name.item.arity < arity then
          [show_error ("too many arguments")
            [(span, (name.item.toString ++ " only takes " ++ Nat.repr name.item.arity ++
              " arguments, but " ++ Nat.repr arity ++ " were provided"))]]
        else []
      .ok (ds ++ arity_ds)
  | .FunctionVar (.PartiallyResolved name) =>
    let local_name := FunctionName.new_local name.function arity
    let pre : Except String (List Diagnostic) :=
      if local_name ∈ v.locals then .ok []
      else
        match lookupKey v.imports local_name with
        | none =>
            .ok [show_error ("reference to undefined function")
              [(span, ("the function " ++ local_name.toString ++
                " is not defined or imported in this module"))]]
        | some imported =>
          match v.app.get_function_deprecation imported with
          | none => .ok []
          | some (.Module dspan flag) =>
              .ok [show_warning ("use of deprecated module")
                [(span, ("this module will be deprecated " ++ flag)),
                 (dspan, ("deprecation declared here"))]]
          | some (.Function _ dspan flag) =>
              .ok [show_warning ("use of deprecated function")
                [(span, ("this function will be deprecated " ++ flag)),
                 (dspan, ("deprecation declared here"))]]
          | some (.FunctionAnyArity _ _ _) => .error ("unreachable")
    match pre with
    | .error e => .error e
    | .ok ds =>
      let arity_ds : List Diagnostic :=
        if name.arity > arity then
          [show_error ("missing arguments")
            [(span, (name.toString ++ " requires " ++ Nat.repr name.arity ++
              " arguments, but only " ++ Nat.repr arity ++ " were provided"))]]
        else if name.arity < arity then
          [show_error ("too many arguments")
            [(span, (name.toString ++ " only takes " ++ Nat.repr name.arity ++
              " arguments, but " ++ Nat.repr arity ++ " were provided"))]]
        else []
      .ok (ds ++ arity_ds)
  | .FunctionVar (.Unresolved name) =>
    let module_ds : List Diagnostic :=
      match name.module with
      | some (.Atom m) =>
        match v.app.get_module_deprecation m.name with
        | some (.Module dspan flag) =>
            [show_warning ("use of deprecated module")
              [(span, ("this module will be deprecated " ++ flag)),
               (dspan, ("deprecation declared here"))]]
        | _ => []
      | _ => []
    let local_check : Except String (List Diagnostic) :=
      match name.module with
      | none =>
        match name.function with
        | .Atom a =>
          let fname := FunctionName.new_local a.name arity
          if fname ∈ v.locals then .ok []
          else
            match lookupKey v.imports fname with
            | none =>
                .ok [show_error ("reference to undefined function")
                  [(span, ("the function " ++ fname.toString ++
                    " is not defined or imported in this module"))]]
            | some imported =>
              match v.app.get_function_deprecation imported with
              | none => .ok []
              | some (.Module dspan flag) =>
                  .ok [show_warning ("use of deprecated module")
                    [(span, ("this module will be deprecated " ++ flag)),
                     (dspan, ("deprecation declared here"))]]
              | some (.Function _ dspan flag) =>
                  .ok [show_warning ("use of deprecated function")
                    [(span, ("this function will be deprecated " ++ flag)),
                     (dspan, ("deprecation declared here"))]]
              | some (.FunctionAnyArity _ _ _) => .error ("unreachable")
        | .Var _ => .ok []
      | some _ => .ok []
    match local_check with
    | .error e => .error e
    | .ok lds =>
      let arity_ds : List Diagnostic :=
        match name.arity with
        | .Int i =>
          if i > arity then
            [show_error ("missing arguments")
              [(span, ("this call requires " ++ Nat.repr i ++
                " arguments, but only " ++ Nat.repr arity ++ " were provided"))]]
          else if i < arity then
            [show_error ("too many arguments")
              [(span, ("this call should only have " ++ Nat.repr i ++
                " arguments, but " ++ Nat.repr arity ++ " were provided"))]]
          else []
        | .Var _ => []
      .ok (module_ds ++ lds ++ arity_ds)
  | .Literal (.Atom id) =>
    let name := FunctionName.new_local id.name arity
    if name ∈ v.locals then .ok []
    else
      match lookupKey v.imports name with
      | none =>
          .ok [show_error ("reference to undefined function")
            [(span, (name.toString ++ " is not defined or imported in this module"))]]
      | some imported =>
        match v.app.get_function_deprecation imported with
        | none => .ok []
        | some (.Module dspan flag) =>
            .ok [show_warning ("use of deprecated module")
              [(span, ("this module will be deprecated " ++ flag)),
               (dspan, ("deprecation declared here"))]]
        | some (.Function _ dspan flag) =>
            .ok [show_warning ("use of deprecated function")
              [(span, ("this function will be deprecated " ++ flag)),
               (dspan, ("deprecation declared here"))]]
        | some (.FunctionAnyArity _ _ _) => .error ("unreachable")
  | _ => .ok []

mutual

/-- The expression walk of VerifyCallsVisitor: call expressions visit their
arguments first, then classify the callee; a remote node recurses into both
sides; other forms have no sub-walk relevant to verification. -/
def visit_mut_expr (v : VerifyCallsVisitor) : Expr → Except String (List Diagnostic)
  | .Apply span callee args =>
    match visit_mut_exprs v args with
    | .error e => .error e
    | .ok ds =>
      match verifyCallee v span (args.length % 256) callee with
      | .error e => .error e
      | .ok cds => .ok (ds ++ cds)
  | .Remote _ mexpr fexpr =>
    match visit_mut_expr v mexpr with
    | .error e => .error e
    | .ok d1 =>
      match visit_mut_expr v fexpr with
      | .error e => .error e
      | .ok d2 => .ok (d1 ++ d2)
  | _ => .ok []

def visit_mut_exprs (v : VerifyCallsVisitor) : List Expr → Except String (List Diagnostic)
  | [] => .ok []
  | e :: es =>
    match visit_mut_expr v e with
    | .error e' => .error e'
    | .ok d =>
      match visit_mut_exprs v es with
      | .error e' => .error e'
      | .ok ds => .ok (d ++ ds)

end

/-- VerifyCallsVisitor::visit_mut_apply on one call expression: arguments are
visited first, then the callee is classified under the wrapped u8 arity. -/
def visit_mut_apply (v : VerifyCallsVisitor) (span : SourceSpan) (callee : Expr)
    (args : List Expr) : Except String (List Diagnostic) :=
  match visit_mut_exprs v args with
  | .error e => .error e
  | .ok ds =>
    match verifyCallee v span (args.length % 256) callee with
    | .error e => .error e
    | .ok cds => .ok (ds ++ cds)

/-- The per-function visit: walk the function body. -/
def visit_mut_function (v : VerifyCallsVisitor) (f : Function) :
    Except String (List Diagnostic) :=
  visit_mut_exprs v f.body

/-- The fold of visit_mut_function over all function definitions. -/
def visit_functions (v : VerifyCallsVisitor) :
    List Function → Except String (List Diagnostic)
  | [] => .ok []
  | f :: fs =>
    match visit_mut_function v f with
    | .error e => .error e
    | .ok d =>
      match visit_functions v fs with
      | .error e => .error e
      | .ok ds => .ok (d ++ ds)

/-- VerifyCalls::run: build locals and imports once, then visit every
function body. -/
def VerifyCalls.run (app : ApplicationMetadata) (m : Module) :
    Except String (Module × List Diagnostic) :=
  let module_name := m.name.name
  let locals := m.functions.map Prod.fst
  let imports := m.imports
  let v : VerifyCallsVisitor :=
    { app := app, module := module_name, locals := locals, imports := imports }
  match visit_functions v (m.functions.map Prod.snd) with
  | .error e => .error e
  | .ok ds => .ok (m, ds)

/-- Modelled from the spec: the driver that runs all five passes in sequence
over one module, accumulating the reported diagnostics in order. -/
def run_all (sim : String → String → Rat) (app : ApplicationMetadata) (m : Module) :
    Except String (Module × List Diagnostic) :=
  match VerifyExports.run sim m with
  | .error e => .error e
  | .ok (m1, d1) =>
    match VerifyOnLoadFunctions.run m1 with
    | .error e => .error e
    | .ok (m2, d2) =>
      match VerifyNifs.run m2 with
      | .error e => .error e
      | .ok (m3, d3) =>
        match VerifyTypeSpecs.run m3 with
        | .error e => .error e
        | .ok (m4, d4) =>
          match VerifyCalls.run app m4 with
          | .error e => .error e
          | .ok (m5, d5) => .ok (m5, d1 ++ d2 ++ d3 ++ d4 ++ d5)

/-! ### Concrete fixtures used by counterexamples and witnesses -/

/-- A metadata collaborator with no deprecation facts. -/
def no_dep_app : ApplicationMetadata := ⟨fun _ => none, fun _ => none⟩

/-- A constant similarity metric scoring zero. -/
def sim_zero : String → String → Rat := fun _ _ => 0

/-- A constant similarity metric scoring one. -/
def sim_one : String → String → Rat := fun _ _ => 1

/-- A visitor context with no locals and no imports, for module m. -/
def empty_ctx : VerifyCallsVisitor := ⟨no_dep_app, "m", [], []⟩

/-- A visitor context whose module defines foo/0 only. -/
def foo0_ctx : VerifyCallsVisitor := ⟨no_dep_app, "m", [FunctionName.new_local "foo" 0], []⟩

/-- A visitor context whose module defines foo/256 only. -/
def foo256_ctx : VerifyCallsVisitor := ⟨no_dep_app, "m", [FunctionName.new_local "foo" 256], []⟩

/-- A call argument list of 256 integer literals. -/
def long_args : List Expr := List.replicate 256 (.Literal (.Integer 0 0))

/-- Helper: visiting a list of integer-literal arguments reports nothing. -/
theorem visit_mut_exprs_replicate (v : VerifyCallsVisitor) (n : Nat) :
    visit_mut_exprs v (List.replicate n (.Literal (.Integer 0 0))) = .ok [] := by
  induction n with
  | zero => simp [visit_mut_exprs]
  | succ k ih => simp [List.replicate, visit_mut_exprs, visit_mut_expr, ih]

/-! ### C1 -/

/-- C1 counterexample: a remote call whose module side is a variable (not a
statically known atom) and whose function side is the atom foo, applied to
zero arguments in a module with no locals and no imports, is checked: the
verifier emits a reference-to-undefined-function error, refuting the claim
that such a call is checked in no way. -/
theorem c1_counterexample_dynamic_remote_checked :
    visit_mut_apply empty_ctx 9
        (.Remote 10 (.Var ⟨"M", 11⟩) (.Literal (.Atom ⟨"foo", 12⟩))) [] =
      .ok [show_error ("reference to undefined function")
        [(12, ("the function foo/0 is not defined or imported in this module"))]] ∧
    visit_mut_apply empty_ctx 9
        (.Remote 10 (.Var ⟨"M", 11⟩) (.Literal (.Atom ⟨"foo", 12⟩))) [] ≠
      .ok [] := by
  constructor
  · simp [visit_mut_apply, visit_mut_exprs, verifyCallee, Expr.as_atom, empty_ctx,
      no_dep_app, lookupKey, FunctionName.new_local, FunctionName.toString, show_error]
    rfl
  · simp [visit_mut_apply, visit_mut_exprs, verifyCallee, Expr.as_atom, empty_ctx,
      no_dep_app, lookupKey, FunctionName.new_local, FunctionName.toString, show_error]

/-- C1 (amended): a call whose callee is a remote expression whose function
position is not a statically known atom receives zero diagnostics, and a call
whose callee is a plain dynamic expression (a variable) receives zero
diagnostics; a remote callee whose module position is dynamic but whose
function position is a static atom is, however, checked against the current
module locals and imports (see the counterexample). -/
theorem c1_amended_dynamic_calls_unchecked (v : VerifyCallsVisitor)
    (span arity rspan : Nat) (mexpr fexpr : Expr) (id : Ident)
    (h : fexpr.as_atom = none) :
    verifyCallee v span arity (.Remote rspan mexpr fexpr) = .ok [] ∧
    verifyCallee v span arity (.Var id) = .ok [] := by
  constructor
  · cases hm : mexpr.as_atom <;> simp [verifyCallee, hm, h]
  · simp [verifyCallee]

/-- C1 amended witness: the amended theorem applied at a concrete fully
dynamic remote call and a concrete variable callee. -/
theorem c1_amended_witness :
    verifyCallee empty_ctx 9 0 (.Remote 10 (.Var ⟨"M", 11⟩) (.Var ⟨"F", 12⟩)) = .ok [] ∧
    verifyCallee empty_ctx 9 0 (.Var ⟨"X", 13⟩) = .ok [] :=
  c1_amended_dynamic_calls_unchecked empty_ctx 9 0 10
    (.Var ⟨"M", 11⟩) (.Var ⟨"F", 12⟩) ⟨"X", 13⟩ rfl

/-! ### C4 -/

/-- The end-to-end module of C4: m defines f/1 and g/0, exports [f/1], and
g/0 calls foo(X); the local call is embedded, as described by the spec, as an
unresolved function reference with no module position and a known function
atom. -/
def m4 : Module :=
  { name := ⟨"m", 0⟩
    functions :=
      [(FunctionName.new_local "f" 1,
        { span := 2, is_nif := false, body := [.Var ⟨"Y", 5⟩] }),
       (FunctionName.new_local "g" 0,
        { span := 3, is_nif := false,
          body := [.Apply 9
            (.FunctionVar (.Unresolved
              { span := 8, module := none, function := .Atom ⟨"foo", 12⟩,
                arity := .Int 1 }))
            [.Var ⟨"X", 13⟩]] })]
    exports := [⟨1, FunctionName.new_local "f" 1⟩]
    imports := []
    specs := []
    nifs := []
    on_load := none }

/-- C4: on module m4 the export verifier emits zero diagnostics and the call
verifier emits exactly one error, reading "the function foo/1 is not defined
or imported in this module". -/
theorem c4_end_to_end :
    VerifyExports.run sim_zero m4 = .ok (m4, []) ∧
    VerifyCalls.run no_dep_app m4 =
      .ok (m4, [show_error ("reference to undefined function")
        [(9, ("the function foo/1 is not defined or imported in this module"))]]) := by
  constructor
  · simp [VerifyExports.run, m4, containsKey, FunctionName.new_local]
  · simp [VerifyCalls.run, m4, visit_functions, visit_mut_function, visit_mut_exprs,
      visit_mut_expr, verifyCallee, lookupKey, FunctionName.new_local,
      FunctionName.toString, no_dep_app, show_error]
    rfl

/-! ### C10 -/

/-- C10: the arity the call verifier uses is the syntactic argument count
reduced modulo 256 (the u8 cast): appending 256 arguments leaves the callee
classification unchanged, and concretely, a bare-atom call with 256 arguments
resolves under arity 0 — it is accepted when foo/0 is defined, and reports
foo/0 (not foo/256) undefined when only foo/256 is defined. -/
theorem c10_arity_wraps_mod_256 :
    (∀ (v : VerifyCallsVisitor) (span : SourceSpan) (callee : Expr)
       (args extra : List Expr), extra.length = 256 →
       verifyCallee v span ((args ++ extra).length % 256) callee =
         verifyCallee v span (args.length % 256) callee) ∧
    visit_mut_apply foo0_ctx 9 (.Literal (.Atom ⟨"foo", 12⟩)) long_args = .ok [] ∧
    visit_mut_apply foo256_ctx 9 (.Literal (.Atom ⟨"foo", 12⟩)) long_args =
      .ok [show_error ("reference to undefined function")
        [(9, ("foo/0 is not defined or imported in this module"))]] := by
  refine ⟨?_, ?_, ?_⟩
  · intro v span callee args extra h
    rw [List.length_append, h, Nat.add_mod_right]
  · simp only [visit_mut_apply, long_args, visit_mut_exprs_replicate,
      List.length_replicate]
    norm_num
    simp [verifyCallee, foo0_ctx, no_dep_app, FunctionName.new_local]
  · simp only [visit_mut_apply, long_args, visit_mut_exprs_replicate,
      List.length_replicate]
    norm_num
    simp [verifyCallee, foo256_ctx, no_dep_app, FunctionName.new_local, lookupKey,
      FunctionName.toString, show_error]
    rfl

/-- C10 witness: the wrap equation applied at a concrete empty argument list
extended by 256 literal arguments. -/
theorem c10_witness :
    verifyCallee empty_ctx 9 ((([] : List Expr) ++ long_args).length % 256)
        (.Literal (.Atom ⟨"foo", 12⟩)) =
      verifyCallee empty_ctx 9 (([] : List Expr).length % 256)
        (.Literal (.Atom ⟨"foo", 12⟩)) :=
  c10_arity_wraps_mod_256.1 empty_ctx 9 (.Literal (.Atom ⟨"foo", 12⟩)) [] long_args
    (by rw [long_args, List.length_replicate])

/-! ### C2 -/

/-- C2 counterexample: a resolved function reference declared with arity 0
applied to 256 syntactic arguments — so K = 256 > N = 0 — produces no arity
diagnostic at all, because the verifier compares N against the u8-wrapped
arity 256 % 256 = 0; this refutes the unbounded claim for calls with 256 or
more syntactic arguments. -/
theorem c2_counterexample_wrapped_arity :
    visit_mut_apply empty_ctx 9
        (.FunctionVar (.Resolved ⟨20, FunctionName.new "other" "h" 0⟩)) long_args =
      .ok [] ∧
    long_args.length = 256 := by
  constructor
  · simp only [visit_mut_apply, long_args, visit_mut_exprs_replicate,
      List.length_replicate]
    norm_num
    simp [verifyCallee, empty_ctx, no_dep_app, FunctionName.new]
  · rw [long_args, List.length_replicate]

/-- C2 (amended): for a call whose callee is a resolved function reference
of declared arity N, applied to K syntactic arguments with K below 256 — so
that the u8-wrapped arity the verifier compares equals the true argument
count — the verifier emits exactly one error titled missing arguments (with
a message naming N and K) when K < N, exactly one error titled too many
arguments when K > N, and no arity diagnostic when K = N; for 256 or more
arguments the comparison uses K mod 256 instead (see the counterexample).
The other hypothesis excludes the legacy deprecation variant that the
metadata never produces at this stage. -/
theorem c2_arity_symmetry (v : VerifyCallsVisitor) (span : SourceSpan) (K : Nat)
    (name : Spanned FunctionName) (_hK : K < 256)
    (hdep : ∀ d, v.app.get_function_deprecation name.item = some d → d.is_legacy = false) :
    ∃ ds, verifyCallee v span K (.FunctionVar (.Resolved name)) = .ok ds ∧
      (K < name.item.arity →
        ds.filter (fun d => decide (d.severity = .error) &&
            decide (d.message = "missing arguments")) =
          [show_error ("missing arguments")
            [(span, (name.item.toString ++ " requires " ++ Nat.repr name.item.arity ++
              " arguments, but only " ++ Nat.repr K ++ " were provided"))]] ∧
        ds.filter (fun d => decide (d.message = "too many arguments")) = []) ∧
      (name.item.arity < K →
        ds.filter (fun d => decide (d.severity = .error) &&
            decide (d.message = "too many arguments")) =
          [show_error ("too many arguments")
            [(span, (name.item.toString ++ " only takes " ++ Nat.repr name.item.arity ++
              " arguments, but " ++ Nat.repr K ++ " were provided"))]] ∧
        ds.filter (fun d => decide (d.message = "missing arguments")) = []) ∧
      (K = name.item.arity →
        ds.filter (fun d => decide (d.message = "missing arguments") ||
          decide (d.message = "too many arguments")) = []) := by
  have hpre : ∃ pds, (∀ d ∈ pds, d.message = "reference to undefined function" ∨
      d.message = "use of deprecated module" ∨ d.message = "use of deprecated function") ∧
      verifyCallee v span K (.FunctionVar (.Resolved name)) =
        .ok (pds ++
          (if name.item.arity > K then
            [show_error ("missing arguments")
              [(span, (name.item.toString ++ " requires " ++ Nat.repr name.item.arity ++
                " arguments, but only " ++ Nat.repr K ++ " were provided"))]]
          else if name.item.arity < K then
            [show_error ("too many arguments")
              [(span, (name.item.toString ++ " only takes " ++ Nat.repr name.item.arity ++
                " arguments, but " ++ Nat.repr K ++ " were provided"))]]
          else [])) := by
    by_cases hm : name.item.module = some v.module
    · by_cases hl : name.item.to_local ∈ v.locals
      · exact ⟨[], by simp, by simp [verifyCallee, hm, hl]⟩
      · refine ⟨[show_error ("reference to undefined function")
          [(name.span, ("the function " ++ name.item.to_local.toString ++
            " is not defined in this module"))]], by simp [show_error],
          by simp [verifyCallee, hm, hl]⟩
    · rcases hd : v.app.get_function_deprecation name.item with _ | d
      · exact ⟨[], by simp, by simp [verifyCallee, hm, hd]⟩
      · rcases d with ⟨dspan, flag⟩ | ⟨g, dspan, flag⟩ | ⟨g, dspan, flag⟩
        · refine ⟨[show_warning ("use of deprecated module")
            [(name.span, ("this function will be deprecated " ++ flag)),
             (dspan, ("deprecation declared here"))]], by simp [show_warning],
            by simp [verifyCallee, hm, hd]⟩
        · refine ⟨[show_warning ("use of deprecated function")
            [(name.span, ("this function will be deprecated " ++ flag)),
             (dspan, ("deprecation declared here"))]], by simp [show_warning],
            by simp [verifyCallee, hm, hd]⟩
        · exact absurd (hdep _ hd) (by simp [Deprecation.is_legacy])
  obtain ⟨pds, hmsg, heq⟩ := hpre
  refine ⟨_, heq, ?_, ?_, ?_⟩
  · intro hlt
    rw [if_pos (by omega)]
    constructor
    · rw [List.filter_append]
      have h1 : pds.filter (fun d => decide (d.severity = .error) &&
          decide (d.message = "missing arguments")) = [] := by
        rw [List.filter_eq_nil_iff]
        intro d hd
        rcases hmsg d hd with h | h | h <;> simp [h]
      rw [h1]
      simp [show_error]
    · rw [List.filter_eq_nil_iff]
      intro d hd
      simp at hd
      rcases hd with hd | hd
      · rcases hmsg d hd with h | h | h <;> simp [h]
      · simp [hd, show_error]
  · intro hlt
    rw [if_neg (by omega), if_pos (by omega)]
    constructor
    · rw [List.filter_append]
      have h1 : pds.filter (fun d => decide (d.severity = .error) &&
          decide (d.message = "too many arguments")) = [] := by
        rw [List.filter_eq_nil_iff]
        intro d hd
        rcases hmsg d hd with h | h | h <;> simp [h]
      rw [h1]
      simp [show_error]
    · rw [List.filter_eq_nil_iff]
      intro d hd
      simp at hd
      rcases hd with hd | hd
      · rcases hmsg d hd with h | h | h <;> simp [h]
      · simp [hd, show_error]
  · intro hEq
    rw [if_neg (by omega), if_neg (by omega)]
    rw [List.append_nil, List.filter_eq_nil_iff]
    intro d hd
    rcases hmsg d hd with h | h | h <;> simp [h]

/-- C2 witness: the arity symmetry applied to a concrete resolved reference
of declared arity 2 called with 1 argument. -/
theorem c2_witness :
    ∃ ds, verifyCallee empty_ctx 9 1
        (.FunctionVar (.Resolved ⟨20, FunctionName.new "other" "h" 2⟩)) = .ok ds ∧
      (1 < (FunctionName.new "other" "h" 2).arity →
        ds.filter (fun d => decide (d.severity = .error) &&
            decide (d.message = "missing arguments")) =
          [show_error ("missing arguments")
            [(9, ((FunctionName.new "other" "h" 2).toString ++ " requires " ++
              Nat.repr (FunctionName.new "other" "h" 2).arity ++
              " arguments, but only " ++ Nat.repr 1 ++ " were provided"))]] ∧
        ds.filter (fun d => decide (d.message = "too many arguments")) = []) ∧
      ((FunctionName.new "other" "h" 2).arity < 1 →
        ds.filter (fun d => decide (d.severity = .error) &&
            decide (d.message = "too many arguments")) =
          [show_error ("too many arguments")
            [(9, ((FunctionName.new "other" "h" 2).toString ++ " only takes " ++
              Nat.repr (FunctionName.new "other" "h" 2).arity ++
              " arguments, but " ++ Nat.repr 1 ++ " were provided"))]] ∧
        ds.filter (fun d => decide (d.message = "missing arguments")) = []) ∧
      (1 = (FunctionName.new "other" "h" 2).arity →
        ds.filter (fun d => decide (d.message = "missing arguments") ||
          decide (d.message = "too many arguments")) = []) :=
  c2_arity_symmetry empty_ctx 9 1 ⟨20, FunctionName.new "other" "h" 2⟩ (by omega)
    (by intro d h; simp [empty_ctx, no_dep_app] at h)

/-! ### C6 -/

/-- Helper: membership in a two-way conditional singleton list. -/
theorem mem_ite_singletons {p q : Prop} [Decidable p] [Decidable q]
    (d e1 e2 : Diagnostic)
    (hd : d ∈ (if p then [e1] else if q then [e2] else [])) : d = e1 ∨ d = e2 := by
  split at hd
  · simp at hd; exact Or.inl hd
  · split at hd
    · simp at hd; exact Or.inr hd
    · simp at hd

/-- C6: when a call target name is present in the module locals (whether or
not it is also importable), the verifier resolves it via the locals in every
unqualified-call branch: it emits no undefined-function error, and the result
does not depend on the metadata collaborator, so no deprecation lookup is
performed against the import origin. -/
theorem c6_shadowing_precedence (v : VerifyCallsVisitor) (app2 : ApplicationMetadata)
    (span : SourceSpan) (arity : Nat) :
    (∀ (rspan : SourceSpan) (mexpr : Expr) (f : Ident),
       mexpr.as_atom = none →
       FunctionName.new_local f.name arity ∈ v.locals →
       (lookupKey v.imports (FunctionName.new_local f.name arity)).isSome →
       verifyCallee v span arity (.Remote rspan mexpr (.Literal (.Atom f))) = .ok []) ∧
    (∀ id : Ident,
       FunctionName.new_local id.name arity ∈ v.locals →
       (lookupKey v.imports (FunctionName.new_local id.name arity)).isSome →
       verifyCallee v span arity (.Literal (.Atom id)) = .ok []) ∧
    (∀ name : PartiallyResolvedFunctionName,
       FunctionName.new_local name.function arity ∈ v.locals →
       (lookupKey v.imports (FunctionName.new_local name.function arity)).isSome →
       verifyCallee v span arity (.FunctionVar (.PartiallyResolved name)) =
         verifyCallee { v with app := app2 } span arity
           (.FunctionVar (.PartiallyResolved name)) ∧
       ∀ ds, verifyCallee v span arity (.FunctionVar (.PartiallyResolved name)) = .ok ds →
         ∀ d ∈ ds, d.message ≠ "reference to undefined function") ∧
    (∀ (name : UnresolvedFunctionName) (a : Ident),
       name.module = none → name.function = .Atom a →
       FunctionName.new_local a.name arity ∈ v.locals →
       (lookupKey v.imports (FunctionName.new_local a.name arity)).isSome →
       verifyCallee v span arity (.FunctionVar (.Unresolved name)) =
         verifyCallee { v with app := app2 } span arity (.FunctionVar (.Unresolved name)) ∧
       ∀ ds, verifyCallee v span arity (.FunctionVar (.Unresolved name)) = .ok ds →
         ∀ d ∈ ds, d.message ≠ "reference to undefined function") := by
  refine ⟨?_, ?_, ?_, ?_⟩
  · intro rspan mexpr f hm hl _
    cases hma : mexpr.as_atom with
    | none =>
      simp only [verifyCallee]
      rw [hma]
      simp [Expr.as_atom, hl]
    | some x => rw [hm] at hma; cases hma
  · intro id hl _
    simp [verifyCallee, hl]
  · intro name hl _
    obtain ⟨nspan, nfun, nar⟩ := name
    constructor
    · simp [verifyCallee, hl]
    · intro ds hds d hd
      simp only [verifyCallee, hl, if_true, reduceIte] at hds
      simp only [Except.ok.injEq, List.nil_append] at hds
      subst hds
      rcases mem_ite_singletons d _ _ hd with h | h <;> subst h <;> simp [show_error]
  · intro name a hmod hfn hl _
    obtain ⟨nspan, nmod, nfn, nar⟩ := name
    simp only at hmod hfn
    subst hmod
    subst hfn
    constructor
    · simp [verifyCallee, hl]
    · intro ds hds d hd
      simp only [verifyCallee, hl, if_true, reduceIte] at hds
      simp only [Except.ok.injEq, List.nil_append] at hds
      subst hds
      cases nar with
      | Var idv => simp at hd
      | Int i =>
        rcases mem_ite_singletons d _ _ hd with h | h <;> subst h <;> simp [show_error]

def c3_origin : FunctionName := FunctionName.new "io" "foo" 0

def c3_dep_app : ApplicationMetadata :=
  ⟨fun n => if n = c3_origin then some (.Function c3_origin 77 "soon") else none,
   fun _ => none⟩

def c3_ctx : VerifyCallsVisitor :=
  ⟨c3_dep_app, "m", [], [(FunctionName.new_local "foo" 0, c3_origin)]⟩

/-- Fixture for the C6 witness: foo/0 is both defined locally and imported
from io, and the import origin io:foo/0 is marked deprecated. -/
def c6_ctx : VerifyCallsVisitor :=
  ⟨c3_dep_app, "m", [FunctionName.new_local "foo" 0],
   [(FunctionName.new_local "foo" 0, c3_origin)]⟩

/-- C6 witness: the shadowing theorem applied at a bare-atom call to foo,
which is both local and imported from a deprecated origin: the local wins and
nothing is reported. -/
theorem c6_witness :
    verifyCallee c6_ctx 9 0 (.Literal (.Atom ⟨"foo", 12⟩)) = .ok [] :=
  (c6_shadowing_precedence c6_ctx no_dep_app 9 0).2.1 ⟨"foo", 12⟩
    (by simp [c6_ctx]) (by rfl)

/-! ### C3 -/


/-- C3 counterexample: a bare-atom call to an imported function whose origin
carries a function-level deprecation fact produces a warning whose primary
span is the whole call span (9), not the function-name token span (12),
refuting the claim that function-level facts anchor on the function token. -/
theorem c3_counterexample_whole_span_anchor :
    verifyCallee c3_ctx 9 0 (.Literal (.Atom ⟨"foo", 12⟩)) =
      .ok [show_warning ("use of deprecated function")
        [(9, ("this function will be deprecated soon")),
         (77, ("deprecation declared here"))]] ∧
    verifyCallee c3_ctx 9 0 (.Literal (.Atom ⟨"foo", 12⟩)) ≠
      .ok [show_warning ("use of deprecated function")
        [(12, ("this function will be deprecated soon")),
         (77, ("deprecation declared here"))]] := by
  refine ⟨rfl, ?_⟩
  intro h
  rw [show verifyCallee c3_ctx 9 0 (.Literal (.Atom ⟨"foo", 12⟩)) =
      .ok [show_warning ("use of deprecated function")
        [(9, ("this function will be deprecated soon")),
         (77, ("deprecation declared here"))]] from rfl] at h
  simp [show_warning] at h

/-- C3 (amended): the exact anchoring of every deprecation warning the call
verifier can emit.  A module-level fact anchors on the module-name token only
for a remote call with both sides statically known atoms.  Function-level
facts anchor on the function-name token exactly in the two remote branches:
remote calls with both sides static atoms, and remote calls whose module side
is dynamic but whose function side is a static atom — in that second branch a
module-level fact on the import origin also anchors on the function-name
token.  In the resolved branch warnings anchor on the reference span, and in
the partially-resolved, unresolved and bare-atom branches on the whole call
span, not on a function-name token.  In every case the secondary annotation
carries the deprecation fact own declared location. -/
theorem c3_amended_deprecation_anchoring (v : VerifyCallsVisitor) (span : SourceSpan)
    (arity : Nat) :
    (∀ (rspan : SourceSpan) (mid fid : Ident) (dspan : SourceSpan) (flag : String),
      mid.name ≠ v.module →
      v.app.get_function_deprecation (FunctionName.new mid.name fid.name arity) =
        some (.Module dspan flag) →
      verifyCallee v span arity
          (.Remote rspan (.Literal (.Atom mid)) (.Literal (.Atom fid))) =
        .ok [show_warning ("use of deprecated module")
          [(mid.span, ("this module will be deprecated " ++ flag)),
           (dspan, ("deprecation declared here"))]]) ∧
    (∀ (rspan : SourceSpan) (mid fid : Ident) (g : FunctionName)
       (dspan : SourceSpan) (flag : String),
      mid.name ≠ v.module →
      v.app.get_function_deprecation (FunctionName.new mid.name fid.name arity) =
        some (.Function g dspan flag) →
      verifyCallee v span arity
          (.Remote rspan (.Literal (.Atom mid)) (.Literal (.Atom fid))) =
        .ok [show_warning ("use of deprecated function")
          [(fid.span, ("this function will be deprecated " ++ flag)),
           (dspan, ("deprecation declared here"))]]) ∧
    (∀ (rspan : SourceSpan) (mexpr : Expr) (fid : Ident) (origin : FunctionName)
       (dspan : SourceSpan) (flag : String),
      mexpr.as_atom = none →
      FunctionName.new_local fid.name arity ∉ v.locals →
      lookupKey v.imports (FunctionName.new_local fid.name arity) = some origin →
      v.app.get_function_deprecation origin = some (.Module dspan flag) →
      verifyCallee v span arity (.Remote rspan mexpr (.Literal (.Atom fid))) =
        .ok [show_warning ("use of deprecated module")
          [(fid.span, ("this function will be deprecated " ++ flag)),
           (dspan, ("deprecation declared here"))]]) ∧
    (∀ (rspan : SourceSpan) (mexpr : Expr) (fid : Ident) (origin g : FunctionName)
       (dspan : SourceSpan) (flag : String),
      mexpr.as_atom = none →
      FunctionName.new_local fid.name arity ∉ v.locals →
      lookupKey v.imports (FunctionName.new_local fid.name arity) = some origin →
      v.app.get_function_deprecation origin = some (.Function g dspan flag) →
      verifyCallee v span arity (.Remote rspan mexpr (.Literal (.Atom fid))) =
        .ok [show_warning ("use of deprecated function")
          [(fid.span, ("this function will be deprecated " ++ flag)),
           (dspan, ("deprecation declared here"))]]) ∧
    (∀ (name : Spanned FunctionName) (dspan : SourceSpan) (flag : String),
      name.item.module ≠ some v.module →
      v.app.get_function_deprecation name.item = some (.Module dspan flag) →
      name.item.arity = arity →
      verifyCallee v span arity (.FunctionVar (.Resolved name)) =
        .ok [show_warning ("use of deprecated module")
          [(name.span, ("this function will be deprecated " ++ flag)),
           (dspan, ("deprecation declared here"))]]) ∧
    (∀ (name : Spanned FunctionName) (g : FunctionName) (dspan : SourceSpan)
       (flag : String),
      name.item.module ≠ some v.module →
      v.app.get_function_deprecation name.item = some (.Function g dspan flag) →
      name.item.arity = arity →
      verifyCallee v span arity (.FunctionVar (.Resolved name)) =
        .ok [show_warning ("use of deprecated function")
          [(name.span, ("this function will be deprecated " ++ flag)),
           (dspan, ("deprecation declared here"))]]) ∧
    (∀ (name : PartiallyResolvedFunctionName) (origin : FunctionName)
       (dspan : SourceSpan) (flag : String),
      FunctionName.new_local name.function arity ∉ v.locals →
      lookupKey v.imports (FunctionName.new_local name.function arity) = some origin →
      v.app.get_function_deprecation origin = some (.Module dspan flag) →
      name.arity = arity →
      verifyCallee v span arity (.FunctionVar (.PartiallyResolved name)) =
        .ok [show_warning ("use of deprecated module")
          [(span, ("this module will be deprecated " ++ flag)),
           (dspan, ("deprecation declared here"))]]) ∧
    (∀ (name : PartiallyResolvedFunctionName) (origin g : FunctionName)
       (dspan : SourceSpan) (flag : String),
      FunctionName.new_local name.function arity ∉ v.locals →
      lookupKey v.imports (FunctionName.new_local name.function arity) = some origin →
      v.app.get_function_deprecation origin = some (.Function g dspan flag) →
      name.arity = arity →
      verifyCallee v span arity (.FunctionVar (.PartiallyResolved name)) =
        .ok [show_warning ("use of deprecated function")
          [(span, ("this function will be deprecated " ++ flag)),
           (dspan, ("deprecation declared here"))]]) ∧
    (∀ (name : UnresolvedFunctionName) (mid : Ident) (dspan : SourceSpan)
       (flag : String),
      name.module = some (.Atom mid) →
      v.app.get_module_deprecation mid.name = some (.Module dspan flag) →
      name.arity = .Int arity →
      verifyCallee v span arity (.FunctionVar (.Unresolved name)) =
        .ok [show_warning ("use of deprecated module")
          [(span, ("this module will be deprecated " ++ flag)),
           (dspan, ("deprecation declared here"))]]) ∧
    (∀ (name : UnresolvedFunctionName) (a : Ident) (origin : FunctionName)
       (dspan : SourceSpan) (flag : String),
      name.module = none → name.function = .Atom a →
      FunctionName.new_local a.name arity ∉ v.locals →
      lookupKey v.imports (FunctionName.new_local a.name arity) = some origin →
      v.app.get_function_deprecation origin = some (.Module dspan flag) →
      name.arity = .Int arity →
      verifyCallee v span arity (.FunctionVar (.Unresolved name)) =
        .ok [show_warning ("use of deprecated module")
          [(span, ("this module will be deprecated " ++ flag)),
           (dspan, ("deprecation declared here"))]]) ∧
    (∀ (name : UnresolvedFunctionName) (a : Ident) (origin g : FunctionName)
       (dspan : SourceSpan) (flag : String),
      name.module = none → name.function = .Atom a →
      FunctionName.new_local a.name arity ∉ v.locals →
      lookupKey v.imports (FunctionName.new_local a.name arity) = some origin →
      v.app.get_function_deprecation origin = some (.Function g dspan flag) →
      name.arity = .Int arity →
      verifyCallee v span arity (.FunctionVar (.Unresolved name)) =
        .ok [show_warning ("use of deprecated function")
          [(span, ("this function will be deprecated " ++ flag)),
           (dspan, ("deprecation declared here"))]]) ∧
    (∀ (id : Ident) (origin : FunctionName) (dspan : SourceSpan) (flag : String),
      FunctionName.new_local id.name arity ∉ v.locals →
      lookupKey v.imports (FunctionName.new_local id.name arity) = some origin →
      v.app.get_function_deprecation origin = some (.Module dspan flag) →
      verifyCallee v span arity (.Literal (.Atom id)) =
        .ok [show_warning ("use of deprecated module")
          [(span, ("this module will be deprecated " ++ flag)),
           (dspan, ("deprecation declared here"))]]) ∧
    (∀ (id : Ident) (origin g : FunctionName) (dspan : SourceSpan) (flag : String),
      FunctionName.new_local id.name arity ∉ v.locals →
      lookupKey v.imports (FunctionName.new_local id.name arity) = some origin →
      v.app.get_function_deprecation origin = some (.Function g dspan flag) →
      verifyCallee v span arity (.Literal (.Atom id)) =
        .ok [show_warning ("use of deprecated function")
          [(span, ("this function will be deprecated " ++ flag)),
           (dspan, ("deprecation declared here"))]]) := by
  refine ⟨?_, ?_, ?_, ?_, ?_, ?_, ?_, ?_, ?_, ?_, ?_, ?_, ?_⟩
  · intro rspan mid fid dspan flag hm hd
    simp [verifyCallee, Expr.as_atom, hm, hd]
  · intro rspan mid fid g dspan flag hm hd
    simp [verifyCallee, Expr.as_atom, hm, hd]
  · intro rspan mexpr fid origin dspan flag hma hl himp hd
    simp only [verifyCallee]
    rw [hma]
    simp [Expr.as_atom, hl, himp, hd]
  · intro rspan mexpr fid origin g dspan flag hma hl himp hd
    simp only [verifyCallee]
    rw [hma]
    simp [Expr.as_atom, hl, himp, hd]
  · intro name dspan flag hm hd ha
    simp [verifyCallee, hm, hd, ha]
  · intro name g dspan flag hm hd ha
    simp [verifyCallee, hm, hd, ha]
  · intro name origin dspan flag hl himp hd ha
    simp [verifyCallee, hl, himp, hd, ha]
  · intro name origin g dspan flag hl himp hd ha
    simp [verifyCallee, hl, himp, hd, ha]
  · intro name mid dspan flag hmod hd ha
    simp [verifyCallee, hmod, hd, ha]
  · intro name a origin dspan flag hmod hfn hl himp hd ha
    simp [verifyCallee, hmod, hfn, hl, himp, hd, ha]
  · intro name a origin g dspan flag hmod hfn hl himp hd ha
    simp [verifyCallee, hmod, hfn, hl, himp, hd, ha]
  · intro id origin dspan flag hl himp hd
    simp [verifyCallee, hl, himp, hd]
  · intro id origin g dspan flag hl himp hd
    simp [verifyCallee, hl, himp, hd]

/-- C3 witness: the amended anchoring theorem applied at the concrete
bare-atom call of the counterexample fixture. -/
theorem c3_witness :
    verifyCallee c3_ctx 9 0 (.Literal (.Atom ⟨"foo", 12⟩)) =
      .ok [show_warning ("use of deprecated function")
        [(9, ("this function will be deprecated " ++ "soon")),
         (77, ("deprecation declared here"))]] :=
  (c3_amended_deprecation_anchoring c3_ctx 9 0).2.2.2.2.2.2.2.2.2.2.2.2
    ⟨"foo", 12⟩ c3_origin c3_origin 77 "soon"
    (by simp [c3_ctx]) (by rfl) (by rfl)

/-! ### C7 -/

/-- The precondition of the claim: the metadata collaborator never returns
the legacy function-any-arity deprecation variant. -/
def no_legacy (app : ApplicationMetadata) : Prop :=
  (∀ n d, app.get_function_deprecation n = some d → d.is_legacy = false) ∧
  (∀ s d, app.get_module_deprecation s = some d → d.is_legacy = false)

/-- Helper: under the precondition, a function-deprecation query yields
nothing, a module-level fact or a function-level fact. -/
theorem dep_shape (v : VerifyCallsVisitor)
    (h : ∀ n d, v.app.get_function_deprecation n = some d → d.is_legacy = false)
    (n : FunctionName) :
    v.app.get_function_deprecation n = none ∨
      (∃ dsp fl, v.app.get_function_deprecation n = some (.Module dsp fl)) ∨
      (∃ g dsp fl, v.app.get_function_deprecation n = some (.Function g dsp fl)) := by
  rcases hd : v.app.get_function_deprecation n with _ | d
  · exact Or.inl rfl
  · rcases d with ⟨dsp, fl⟩ | ⟨g, dsp, fl⟩ | ⟨g, dsp, fl⟩
    · exact Or.inr (Or.inl ⟨_, _, rfl⟩)
    · exact Or.inr (Or.inr ⟨_, _, _, rfl⟩)
    · exact absurd (h _ _ hd) (by simp [Deprecation.is_legacy])

/-- Helper: an Except value that is never an error is an ok. -/
theorem exists_ok {α β : Type} (x : Except α β) (hx : ∀ e, x ≠ .error e) :
    ∃ b, x = .ok b := by
  cases x with
  | error e => exact absurd rfl (hx e)
  | ok b => exact ⟨b, rfl⟩

/-- Helper: under the precondition the callee classification never reaches
the unreachable branch: it always returns a diagnostic list. -/
theorem verifyCallee_total (v : VerifyCallsVisitor)
    (h : ∀ n d, v.app.get_function_deprecation n = some d → d.is_legacy = false)
    (span : SourceSpan) (arity : Nat) (callee : Expr) :
    ∃ ds, verifyCallee v span arity callee = .ok ds := by
  apply exists_ok
  intro e
  cases callee with
  | Remote rspan me fe =>
    rcases hma : me.as_atom with _ | mi <;> rcases hfa : fe.as_atom with _ | fi
    · simp only [verifyCallee]; rw [hma, hfa]; simp
    · by_cases hl : FunctionName.new_local fi.name arity ∈ v.locals
      · simp only [verifyCallee]; rw [hma, hfa]; simp [hl]
      · rcases hk : lookupKey v.imports (FunctionName.new_local fi.name arity)
          with _ | origin
        · simp only [verifyCallee]; rw [hma, hfa]; simp [hl, hk]
        · rcases dep_shape v h origin with h0 | ⟨dsp, fl, h0⟩ | ⟨g, dsp, fl, h0⟩ <;>
            (simp only [verifyCallee]; rw [hma, hfa]; simp [hl, hk, h0])
    · simp only [verifyCallee]; rw [hma, hfa]; simp
    · by_cases hm : mi.name = v.module
      · by_cases hl : FunctionName.new_local fi.name arity ∈ v.locals <;>
          (simp only [verifyCallee]; rw [hma, hfa]; simp [hm, hl])
      · rcases dep_shape v h (FunctionName.new mi.name fi.name arity)
          with h0 | ⟨dsp, fl, h0⟩ | ⟨g, dsp, fl, h0⟩ <;>
          (simp only [verifyCallee]; rw [hma, hfa]; simp [hm, h0])
  | FunctionVar fv =>
    cases fv with
    | Resolved name =>
      by_cases hm : name.item.module = some v.module
      · by_cases hl : name.item.to_local ∈ v.locals <;> simp [verifyCallee, hm, hl]
      · rcases dep_shape v h name.item with h0 | ⟨dsp, fl, h0⟩ | ⟨g, dsp, fl, h0⟩ <;>
          simp [verifyCallee, hm, h0]
    | PartiallyResolved name =>
      by_cases hl : FunctionName.new_local name.function arity ∈ v.locals
      · simp [verifyCallee, hl]
      · rcases hk : lookupKey v.imports (FunctionName.new_local name.function arity)
          with _ | origin
        · simp [verifyCallee, hl, hk]
        · rcases dep_shape v h origin with h0 | ⟨dsp, fl, h0⟩ | ⟨g, dsp, fl, h0⟩ <;>
            simp [verifyCallee, hl, hk, h0]
    | Unresolved name =>
      rcases hmod : name.module with _ | nm
      · rcases hfn : name.function with a | a
        · by_cases hl : FunctionName.new_local a.name arity ∈ v.locals
          · simp [verifyCallee, hmod, hfn, hl]
          · rcases hk : lookupKey v.imports (FunctionName.new_local a.name arity)
              with _ | origin
            · simp [verifyCallee, hmod, hfn, hl, hk]
            · rcases dep_shape v h origin with h0 | ⟨dsp, fl, h0⟩ | ⟨g, dsp, fl, h0⟩ <;>
                simp [verifyCallee, hmod, hfn, hl, hk, h0]
        · simp [verifyCallee, hmod, hfn]
      · cases nm with
        | Atom mi => simp [verifyCallee, hmod]
        | Var mi => simp [verifyCallee, hmod]
  | Literal lit =>
    cases lit with
    | Integer s i => simp [verifyCallee]
    | Atom id =>
      by_cases hl : FunctionName.new_local id.name arity ∈ v.locals
      · simp [verifyCallee, hl]
      · rcases hk : lookupKey v.imports (FunctionName.new_local id.name arity)
          with _ | origin
        · simp [verifyCallee, hl, hk]
        · rcases dep_shape v h origin with h0 | ⟨dsp, fl, h0⟩ | ⟨g, dsp, fl, h0⟩ <;>
            simp [verifyCallee, hl, hk, h0]
  | Apply s c a => simp [verifyCallee]
  | Var id => simp [verifyCallee]

mutual

/-- Helper: the expression walk never panics under the precondition. -/
theorem visit_mut_expr_ok (v : VerifyCallsVisitor)
    (h : ∀ n d, v.app.get_function_deprecation n = some d → d.is_legacy = false) :
    ∀ e : Expr, ∃ ds, visit_mut_expr v e = .ok ds
  | .Apply span callee args => by
    obtain ⟨d1, h1⟩ := visit_mut_exprs_ok v h args
    obtain ⟨d2, h2⟩ := verifyCallee_total v h span (args.length % 256) callee
    exact ⟨d1 ++ d2, by simp [visit_mut_expr, h1, h2]⟩
  | .Remote s me fe => by
    obtain ⟨d1, h1⟩ := visit_mut_expr_ok v h me
    obtain ⟨d2, h2⟩ := visit_mut_expr_ok v h fe
    exact ⟨d1 ++ d2, by simp [visit_mut_expr, h1, h2]⟩
  | .FunctionVar fv => ⟨[], by simp [visit_mut_expr]⟩
  | .Literal l => ⟨[], by simp [visit_mut_expr]⟩
  | .Var id => ⟨[], by simp [visit_mut_expr]⟩

/-- Helper: the expression-list walk never panics under the precondition. -/
theorem visit_mut_exprs_ok (v : VerifyCallsVisitor)
    (h : ∀ n d, v.app.get_function_deprecation n = some d → d.is_legacy = false) :
    ∀ es : List Expr, ∃ ds, visit_mut_exprs v es = .ok ds
  | [] => ⟨[], by simp [visit_mut_exprs]⟩
  | e :: es => by
    obtain ⟨d1, h1⟩ := visit_mut_expr_ok v h e
    obtain ⟨d2, h2⟩ := visit_mut_exprs_ok v h es
    exact ⟨d1 ++ d2, by simp [visit_mut_exprs, h1, h2]⟩

end

/-- Helper: the function fold never panics under the precondition. -/
theorem visit_functions_ok (v : VerifyCallsVisitor)
    (h : ∀ n d, v.app.get_function_deprecation n = some d → d.is_legacy = false)
    (fs : List Function) : ∃ ds, visit_functions v fs = .ok ds := by
  induction fs with
  | nil => exact ⟨[], by simp [visit_functions]⟩
  | cons f fs ih =>
    obtain ⟨d1, h1⟩ := visit_mut_exprs_ok v h f.body
    obtain ⟨d2, h2⟩ := ih
    exact ⟨d1 ++ d2, by simp [visit_functions, visit_mut_function, h1, h2]⟩

/-- Helper: the on_load pass always succeeds, returning its module. -/
theorem onload_shape (m : Module) :
    ∃ ds, VerifyOnLoadFunctions.run m = .ok (m, ds) := by
  unfold VerifyOnLoadFunctions.run
  rcases m.on_load with _ | n
  · exact ⟨[], rfl⟩
  · dsimp only
    split <;> exact ⟨_, rfl⟩

/-- Helper: the calls pass always succeeds under the precondition, returning
its module. -/
theorem calls_shape (app : ApplicationMetadata) (m : Module)
    (h : ∀ n d, app.get_function_deprecation n = some d → d.is_legacy = false) :
    ∃ ds, VerifyCalls.run app m = .ok (m, ds) := by
  obtain ⟨ds, hds⟩ := visit_functions_ok
    ⟨app, m.name.name, m.functions.map Prod.fst, m.imports⟩ h (m.functions.map Prod.snd)
  exact ⟨ds, by simp [VerifyCalls.run, hds]⟩

/-- C7: under the precondition that the metadata collaborator never returns
the legacy deprecation variant, each of the five passes is total: it always
completes without panicking (the unreachable branches are dead), never
returns an error, and returns Ok with the very module it was given. -/
theorem c7_totality (sim : String → String → Rat) (app : ApplicationMetadata)
    (m : Module) (h : no_legacy app) :
    (∃ ds, VerifyExports.run sim m = .ok (m, ds)) ∧
    (∃ ds, VerifyOnLoadFunctions.run m = .ok (m, ds)) ∧
    (∃ ds, VerifyNifs.run m = .ok (m, ds)) ∧
    (∃ ds, VerifyTypeSpecs.run m = .ok (m, ds)) ∧
    (∃ ds, VerifyCalls.run app m = .ok (m, ds)) :=
  ⟨⟨_, rfl⟩, onload_shape m, ⟨_, rfl⟩, ⟨_, rfl⟩, calls_shape app m h.1⟩

/-- C7 witness: totality applied at the concrete module m4 with the empty
metadata collaborator. -/
theorem c7_witness :
    (∃ ds, VerifyExports.run sim_zero m4 = .ok (m4, ds)) ∧
    (∃ ds, VerifyOnLoadFunctions.run m4 = .ok (m4, ds)) ∧
    (∃ ds, VerifyNifs.run m4 = .ok (m4, ds)) ∧
    (∃ ds, VerifyTypeSpecs.run m4 = .ok (m4, ds)) ∧
    (∃ ds, VerifyCalls.run no_dep_app m4 = .ok (m4, ds)) :=
  c7_totality sim_zero no_dep_app m4
    ⟨fun n d hd => by simp [no_dep_app] at hd, fun s d hd => by simp [no_dep_app] at hd⟩

/-! ### C8 -/

/-- Helper: the export pass returns its module. -/
theorem exports_preserve (sim : String → String → Rat) (m m' : Module)
    (ds : List Diagnostic) (h : VerifyExports.run sim m = .ok (m', ds)) : m' = m := by
  simp only [VerifyExports.run, Except.ok.injEq, Prod.mk.injEq] at h
  exact h.1.symm

/-- Helper: the on_load pass returns its module. -/
theorem onload_preserve (m m' : Module) (ds : List Diagnostic)
    (h : VerifyOnLoadFunctions.run m = .ok (m', ds)) : m' = m := by
  obtain ⟨d0, h0⟩ := onload_shape m
  rw [h0] at h
  simp only [Except.ok.injEq, Prod.mk.injEq] at h
  exact h.1.symm

/-- Helper: the nif pass returns its module. -/
theorem nifs_preserve (m m' : Module) (ds : List Diagnostic)
    (h : VerifyNifs.run m = .ok (m', ds)) : m' = m := by
  simp only [VerifyNifs.run, Except.ok.injEq, Prod.mk.injEq] at h
  exact h.1.symm

/-- Helper: the type-spec pass returns its module. -/
theorem specs_preserve (m m' : Module) (ds : List Diagnostic)
    (h : VerifyTypeSpecs.run m = .ok (m', ds)) : m' = m := by
  simp only [VerifyTypeSpecs.run, Except.ok.injEq, Prod.mk.injEq] at h
  exact h.1.symm

/-- Helper: the calls pass returns its module whenever it returns at all. -/
theorem calls_preserve (app : ApplicationMetadata) (m m' : Module)
    (ds : List Diagnostic) (h : VerifyCalls.run app m = .ok (m', ds)) : m' = m := by
  simp only [VerifyCalls.run] at h
  split at h
  · cases h
  · simp only [Except.ok.injEq, Prod.mk.injEq] at h
    exact h.1.symm

/-- C8: whenever a pass returns, it returns the module structurally
unchanged: functions, exports, imports, specs, nifs, the on_load hook and
the module name are all equal to their values before the pass; diagnostics
are the only output. -/
theorem c8_frame (sim : String → String → Rat) (app : ApplicationMetadata)
    (m m' : Module) (ds : List Diagnostic) :
    (VerifyExports.run sim m = .ok (m', ds) →
      m'.functions = m.functions ∧ m'.exports = m.exports ∧ m'.imports = m.imports ∧
      m'.specs = m.specs ∧ m'.nifs = m.nifs ∧ m'.on_load = m.on_load ∧
      m'.name = m.name) ∧
    (VerifyOnLoadFunctions.run m = .ok (m', ds) →
      m'.functions = m.functions ∧ m'.exports = m.exports ∧ m'.imports = m.imports ∧
      m'.specs = m.specs ∧ m'.nifs = m.nifs ∧ m'.on_load = m.on_load ∧
      m'.name = m.name) ∧
    (VerifyNifs.run m = .ok (m', ds) →
      m'.functions = m.functions ∧ m'.exports = m.exports ∧ m'.imports = m.imports ∧
      m'.specs = m.specs ∧ m'.nifs = m.nifs ∧ m'.on_load = m.on_load ∧
      m'.name = m.name) ∧
    (VerifyTypeSpecs.run m = .ok (m', ds) →
      m'.functions = m.functions ∧ m'.exports = m.exports ∧ m'.imports = m.imports ∧
      m'.specs = m.specs ∧ m'.nifs = m.nifs ∧ m'.on_load = m.on_load ∧
      m'.name = m.name) ∧
    (VerifyCalls.run app m = .ok (m', ds) →
      m'.functions = m.functions ∧ m'.exports = m.exports ∧ m'.imports = m.imports ∧
      m'.specs = m.specs ∧ m'.nifs = m.nifs ∧ m'.on_load = m.on_load ∧
      m'.name = m.name) := by
  refine ⟨?_, ?_, ?_, ?_, ?_⟩ <;> intro h
  · cases exports_preserve sim m m' ds h
    exact ⟨rfl, rfl, rfl, rfl, rfl, rfl, rfl⟩
  · cases onload_preserve m m' ds h
    exact ⟨rfl, rfl, rfl, rfl, rfl, rfl, rfl⟩
  · cases nifs_preserve m m' ds h
    exact ⟨rfl, rfl, rfl, rfl, rfl, rfl, rfl⟩
  · cases specs_preserve m m' ds h
    exact ⟨rfl, rfl, rfl, rfl, rfl, rfl, rfl⟩
  · cases calls_preserve app m m' ds h
    exact ⟨rfl, rfl, rfl, rfl, rfl, rfl, rfl⟩

/-- C8 witness: the frame property applied to the concrete export pass run
on module m4, which succeeds with no diagnostics. -/
theorem c8_witness :
    m4.functions = m4.functions ∧ m4.exports = m4.exports ∧
    m4.imports = m4.imports ∧ m4.specs = m4.specs ∧ m4.nifs = m4.nifs ∧
    m4.on_load = m4.on_load ∧ m4.name = m4.name :=
  (c8_frame sim_zero no_dep_app m4 m4 []).1 rfl

/-! ### C9 -/

/-- C9: the five-pass sequence is idempotent: a second run of all five
passes over the module returned by a first successful run produces exactly
the same module and the same diagnostic list. -/
theorem c9_idempotent (sim : String → String → Rat) (app : ApplicationMetadata)
    (m m' : Module) (ds : List Diagnostic)
    (h : run_all sim app m = .ok (m', ds)) :
    run_all sim app m' = .ok (m', ds) := by
  obtain ⟨d1, h1⟩ : ∃ d, VerifyExports.run sim m = .ok (m, d) := ⟨_, rfl⟩
  obtain ⟨d2, h2⟩ := onload_shape m
  obtain ⟨d3, h3⟩ : ∃ d, VerifyNifs.run m = .ok (m, d) := ⟨_, rfl⟩
  obtain ⟨d4, h4⟩ : ∃ d, VerifyTypeSpecs.run m = .ok (m, d) := ⟨_, rfl⟩
  rcases hc : VerifyCalls.run app m with e | p
  · simp only [run_all, h1, h2, h3, h4, hc] at h
    cases h
  · obtain ⟨m5, d5⟩ := p
    have hm5 : m5 = m := calls_preserve app m m5 d5 hc
    subst hm5
    simp only [run_all, h1, h2, h3, h4, hc, Except.ok.injEq, Prod.mk.injEq] at h
    obtain ⟨hmd, hds⟩ := h
    subst hmd
    subst hds
    simp only [run_all, h1, h2, h3, h4, hc]

/-- C9 witness: idempotence applied to the concrete module m4, whose first
full run reports exactly the one undefined-call error. -/
theorem c9_witness :
    run_all sim_zero no_dep_app m4 =
      .ok (m4, [show_error ("reference to undefined function")
        [(9, ("the function foo/1 is not defined or imported in this module"))]]) :=
  c9_idempotent sim_zero no_dep_app m4 m4
    [show_error ("reference to undefined function")
      [(9, ("the function foo/1 is not defined or imported in this module"))]]
    (by
      simp [run_all, VerifyExports.run, VerifyOnLoadFunctions.run, VerifyNifs.run,
        VerifyTypeSpecs.run, VerifyCalls.run, m4, containsKey, visit_functions,
        visit_mut_function, visit_mut_exprs, visit_mut_expr, verifyCallee, lookupKey,
        FunctionName.new_local, FunctionName.toString, no_dep_app, show_error]
      rfl)

/-! ### C5 -/

/-- Helper: the max_by fold from a some accumulator returns an element that
is the accumulator or a list member and dominates the accumulator and every
list element. -/
theorem max_by_go (l : List (Rat × Spanned String)) :
    ∀ a, ∃ p, l.foldl max_by_step (some a) = some p ∧ (p = a ∨ p ∈ l) ∧
      a.1 ≤ p.1 ∧ ∀ q ∈ l, q.1 ≤ p.1 := by
  induction l with
  | nil => intro a; exact ⟨a, rfl, Or.inl rfl, le_refl _, by simp⟩
  | cons x xs ih =>
    intro a
    by_cases hax : a.1 > x.1
    · obtain ⟨p, hp, hmem, hle, hmax⟩ := ih a
      refine ⟨p, by simpa [max_by_step, hax] using hp, ?_, hle, ?_⟩
      · rcases hmem with rfl | hm
        · exact Or.inl rfl
        · exact Or.inr (List.mem_cons_of_mem _ hm)
      · intro q hq
        rcases List.mem_cons.mp hq with rfl | hq
        · exact le_trans (le_of_lt hax) hle
        · exact hmax q hq
    · obtain ⟨p, hp, hmem, hle, hmax⟩ := ih x
      refine ⟨p, by simpa [max_by_step, hax] using hp,
        ?_, le_trans (le_of_not_lt hax) hle, ?_⟩
      · rcases hmem with rfl | hm
        · exact Or.inr (List.mem_cons_self _ _)
        · exact Or.inr (List.mem_cons_of_mem _ hm)
      · intro q hq
        rcases List.mem_cons.mp hq with rfl | hq
        · exact hle
        · exact hmax q hq

/-- Helper: a maximum returned by max_by_score is a member dominating the
whole list. -/
theorem max_by_score_spec (l : List (Rat × Spanned String))
    (p : Rat × Spanned String) (h : max_by_score l = some p) :
    p ∈ l ∧ ∀ q ∈ l, q.1 ≤ p.1 := by
  cases l with
  | nil => simp [max_by_score] at h
  | cons x xs =>
    obtain ⟨q, hq, hmem, hle, hmax⟩ := max_by_go xs x
    simp only [max_by_score, List.foldl_cons, max_by_step] at h
    rw [hq] at h
    injection h with h
    subst h
    refine ⟨?_, ?_⟩
    · rcases hmem with rfl | hm
      · exact List.mem_cons_self _ _
      · exact List.mem_cons_of_mem _ hm
    · intro r hr
      rcases List.mem_cons.mp hr with rfl | hr
      · exact hle
      · exact hmax r hr

/-- Helper: max_by_score returns a value on any nonempty list. -/
theorem max_by_score_ne_none (l : List (Rat × Spanned String)) (hl : l ≠ []) :
    ∃ p, max_by_score l = some p := by
  cases l with
  | nil => exact absurd rfl hl
  | cons x xs =>
    obtain ⟨p, hp, _, _, _⟩ := max_by_go xs x
    refine ⟨p, ?_⟩
    simp only [max_by_score, List.foldl_cons, max_by_step]
    exact hp

/-- C5: for every export absent from the defined functions, the export
verifier records the diagnostic for that export; the diagnostic carries the
two-location "maybe you meant to export ... instead?" suggestion pointing at
a maximum-scoring candidate exactly when some (hence the maximum) candidate
scores at least 0.85 = 17/20 under the similarity metric, and is a
single-location error without suggestion when every candidate scores below
the threshold or there are no candidates. -/
theorem c5_similarity_threshold (sim : String → String → Rat) (m : Module)
    (ex : Spanned FunctionName)
    (_hbound : ∀ a b, 0 ≤ sim a b ∧ sim a b ≤ 1)
    (hmem : ex ∈ m.exports)
    (habs : containsKey m.functions ex.item = false) :
    (∃ ds, VerifyExports.run sim m = .ok (m, ds) ∧ export_diag sim m ex ∈ ds) ∧
    ((∃ f ∈ similar_functions m, 17 / 20 ≤ |sim (ex.item.toString) f.item|) →
      ∃ f, f ∈ similar_functions m ∧
        (∀ g ∈ similar_functions m,
          |sim (ex.item.toString) g.item| ≤ |sim (ex.item.toString) f.item|) ∧
        export_diag sim m ex = show_error ("invalid export")
          [(ex.span, ("the referenced function is not defined in this module")),
           (f.span, ("maybe you meant to export " ++ f.item ++ " instead?"))]) ∧
    ((∀ f ∈ similar_functions m, |sim (ex.item.toString) f.item| < 17 / 20) →
      export_diag sim m ex = show_error ("invalid export")
        [(ex.span, ("the referenced function is not defined in this module"))]) := by
  refine ⟨?_, ?_, ?_⟩
  · refine ⟨_, rfl, ?_⟩
    have key : ∀ (l : List (Spanned FunctionName)) (acc : List Diagnostic),
        (export_diag sim m ex ∈ acc ∨ ex ∈ l) →
        export_diag sim m ex ∈ l.foldl (fun acc e =>
          if containsKey m.functions e.item then acc
          else acc ++ [export_diag sim m e]) acc := by
      intro l
      induction l with
      | nil =>
        intro acc h
        rcases h with h | h
        · simpa using h
        · simp at h
      | cons x xs ih =>
        intro acc h
        simp only [List.foldl_cons]
        rcases h with hacc | hex
        · apply ih
          left
          split
          · exact hacc
          · exact List.mem_append_left _ hacc
        · rcases List.mem_cons.mp hex with rfl | hex
          · apply ih
            left
            rw [if_neg (by simp [habs])]
            exact List.mem_append_right _ (List.mem_singleton.mpr rfl)
          · exact ih _ (Or.inr hex)
    exact key m.exports [] (Or.inr hmem)
  · rintro ⟨f0, hf0, hscore⟩
    have hne : (similar_functions m).map
        (fun f => (|sim (ex.item.toString) f.item|, f)) ≠ [] := by
      intro hnil
      rw [List.map_eq_nil_iff] at hnil
      rw [hnil] at hf0
      cases hf0
    obtain ⟨p, hp⟩ := max_by_score_ne_none _ hne
    obtain ⟨hpmem, hpmax⟩ := max_by_score_spec _ p hp
    obtain ⟨f, hf, rfl⟩ := List.mem_map.mp hpmem
    have hth : ¬ (|sim (ex.item.toString) f.item| < 17 / 20) := by
      have h1 := hpmax (|sim (ex.item.toString) f0.item|, f0)
        (List.mem_map_of_mem _ hf0)
      exact not_lt.mpr (le_trans hscore h1)
    refine ⟨f, hf, ?_, ?_⟩
    · intro g hg
      exact hpmax (|sim (ex.item.toString) g.item|, g) (List.mem_map_of_mem _ hg)
    · simp only [export_diag, most_similar]
      rw [hp]
      simp [hth]
  · intro hall
    simp only [export_diag, most_similar]
    rcases hmax : max_by_score ((similar_functions m).map
        (fun f => (|sim (ex.item.toString) f.item|, f))) with _ | p
    · rw [hmax]
    · obtain ⟨hpmem, _⟩ := max_by_score_spec _ p hmax
      obtain ⟨f, hf, rfl⟩ := List.mem_map.mp hpmem
      rw [hmax]
      simp [hall f hf]

/-- Fixture for the C5 witness: a module defining only foo_bar/1 while
exporting foo/1. -/
def m5 : Module :=
  { name := ⟨"m", 0⟩
    functions :=
      [(FunctionName.new_local "foo_bar" 1,
        { span := 2, is_nif := false, body := [] })]
    exports := [⟨1, FunctionName.new_local "foo" 1⟩]
    imports := []
    specs := []
    nifs := []
    on_load := none }

/-- C5 witness: the threshold theorem applied to module m5 under the
constant similarity metric scoring one. -/
theorem c5_witness :
    (∃ ds, VerifyExports.run sim_one m5 = .ok (m5, ds) ∧
      export_diag sim_one m5 ⟨1, FunctionName.new_local "foo" 1⟩ ∈ ds) ∧
    ((∃ f ∈ similar_functions m5,
        17 / 20 ≤ |sim_one ((FunctionName.new_local "foo" 1).toString) f.item|) →
      ∃ f, f ∈ similar_functions m5 ∧
        (∀ g ∈ similar_functions m5,
          |sim_one ((FunctionName.new_local "foo" 1).toString) g.item| ≤
            |sim_one ((FunctionName.new_local "foo" 1).toString) f.item|) ∧
        export_diag sim_one m5 ⟨1, FunctionName.new_local "foo" 1⟩ =
          show_error ("invalid export")
            [(1, ("the referenced function is not defined in this module")),
             (f.span, ("maybe you meant to export " ++ f.item ++ " instead?"))]) ∧
    ((∀ f ∈ similar_functions m5,
        |sim_one ((FunctionName.new_local "foo" 1).toString) f.item| < 17 / 20) →
      export_diag sim_one m5 ⟨1, FunctionName.new_local "foo" 1⟩ =
        show_error ("invalid export")
          [(1, ("the referenced function is not defined in this module"))]) :=
  c5_similarity_threshold sim_one m5 ⟨1, FunctionName.new_local "foo" 1⟩
    (fun a b => by constructor <;> norm_num [sim_one])
    (by simp [m5])
    (by rfl)

end Erl
